import Mathlib

/-!
Shallow embedding of the homelab-plugin Grafana datasource backend
(`pkg/datasource.go` and the `models` settings package) in Lean 4.

Modelling conventions:
* Go pointers that may be nil become `Option`.
* Go `(value, error)` returns become `Except String value`.
* `json.Unmarshal` outcomes are abstracted by an `Except String _` input
  holding either the decode error message or the decoded field values.
* The HTTP environment (request construction, the response or transport
  error the client would deliver) is passed in as explicit arguments; a
  `Bool` component of the result records whether the outbound network
  call (`httpClient.Do` / `httpClient.Get`) was reached.
* `float64` values are abstracted to `ℚ`; `strconv.ParseFloat` is an
  explicit parameter `parseFloat : String → Option ℚ` (`none` models a
  parse error).
-/

namespace HomelabPlugin

/-- Model of `unicode.IsSpace` on a `Char`, as used by Go's `strings.Fields`. -/
def isGoSpace (c : Char) : Bool :=
  (9 ≤ c.toNat && c.toNat ≤ 13) || c.toNat == 32 || c.toNat == 0x85 ||
  c.toNat == 0xA0 || c.toNat == 0x1680 ||
  (0x2000 ≤ c.toNat && c.toNat ≤ 0x200A) || c.toNat == 0x2028 ||
  c.toNat == 0x2029 || c.toNat == 0x202F || c.toNat == 0x205F ||
  c.toNat == 0x3000

/-- Worker for `goFields`: splits a character list around runs of
whitespace, accumulating the current field in reverse in `cur`. -/
def splitFieldsAux : List Char → List Char → List String
  | [], cur => if cur = [] then [] else [⟨cur.reverse⟩]
  | c :: rest, cur =>
    if isGoSpace c then
      if cur = [] then splitFieldsAux rest []
      else ⟨cur.reverse⟩ :: splitFieldsAux rest []
    else splitFieldsAux rest (c :: cur)

/-- Go `strings.Fields`: the whitespace-separated fields of a string,
never containing an empty field. -/
def goFields (s : String) : List String :=
  splitFieldsAux s.data []

/-- Worker for `goSplitNewline`. -/
def splitLinesAux : List Char → List Char → List String
  | [], cur => [⟨cur.reverse⟩]
  | c :: rest, cur =>
    if c = '\n' then ⟨cur.reverse⟩ :: splitLinesAux rest []
    else splitLinesAux rest (c :: cur)

/-- Go `strings.Split(s, "\n")`: the segments of `s` between newline
characters, retaining empty segments. -/
def goSplitNewline (s : String) : List String :=
  splitLinesAux s.data []

/-- Go `strings.HasPrefix(s, pre)`: byte-for-byte test that `pre` starts `s`. -/
def goStartsWith (s pre : String) : Bool :=
  pre.data.isPrefixOf s.data

/-- Model of `models.SecretPluginSettings`. -/
structure SecretPluginSettings where
  apiKey : String
deriving DecidableEq, Repr

/-- Model of `models.PluginSettings`; `secrets` is a Go pointer, hence `Option`. -/
structure PluginSettings where
  path : String
  secrets : Option SecretPluginSettings
deriving DecidableEq, Repr

/-- Model of `models.loadSecretPluginSettings`: look up `"apiKey"` in the
decrypted secure-JSON map; missing or empty fails. -/
def loadSecretPluginSettings (source : List (String × String)) :
    Except String SecretPluginSettings :=
  match source.lookup "apiKey" with
  | none => .error "apiKey is missing or empty"
  | some apiKey =>
    if apiKey = "" then .error "apiKey is missing or empty"
    else .ok ⟨apiKey⟩

/-- Model of `models.LoadPluginSettings`. Here `jsonData` abstracts the result of
`json.Unmarshal(source.JSONData, &settings)` (the decoded `path`, or the
decode error). -/
def LoadPluginSettings (jsonData : Except String String)
    (decryptedSecureJSONData : List (String × String)) :
    Except String PluginSettings :=
  match jsonData with
  | .error e => .error ("could not unmarshal PluginSettings json: " ++ e)
  | .ok path =>
    match loadSecretPluginSettings decryptedSecureJSONData with
    | .error e => .error ("failed to load secret plugin settings: " ++ e)
    | .ok secrets => .ok ⟨path, some secrets⟩

/-- The fields of `backend.DataSourceInstanceSettings` that
`newDataSource` reads. -/
structure DataSourceInstanceSettings where
  uid : String
  jsonData : Except String String
  decryptedSecureJSONData : List (String × String)

/-- The `testDataSource` receiver: whether `httpClient` is non-nil, and
the (possibly nil) loaded settings. -/
structure TestDataSource where
  httpClient : Bool
  settings : Option PluginSettings
deriving DecidableEq, Repr

/-- Model of `newDataSource`: reject an empty UID, then build the HTTP client
options, the client, and the plugin settings, failing on the first
error. `httpClientOptions` and `clientNew` abstract the outcomes of
`settings.HTTPClientOptions(ctx)` and `httpclient.New(opts)`. -/
def newDataSource (settings : DataSourceInstanceSettings)
    (httpClientOptions clientNew : Except String Unit) :
    Except String TestDataSource :=
  if settings.uid = "" then
    .error "data source instance settings cannot be nil"
  else
    match httpClientOptions with
    | .error e => .error e
    | .ok _ =>
      match clientNew with
      | .error e => .error e
      | .ok _ =>
        match LoadPluginSettings settings.jsonData
            settings.decryptedSecureJSONData with
        | .error e => .error ("failed to load plugin settings: " ++ e)
        | .ok ps => .ok ⟨true, some ps⟩

/-- Model of `backend.HealthStatus` (the two values this plugin produces). -/
inductive HealthStatus
  | ok
  | error
deriving DecidableEq, Repr

/-- Model of `backend.CheckHealthResult`. -/
structure CheckHealthResult where
  status : HealthStatus
  message : String
deriving DecidableEq, Repr

/-- What `httpClient.Do(req)` would deliver: a transport error, or a
response with its numeric status code and status line. -/
inductive HTTPResult
  | transportError (msg : String)
  | response (statusCode : Nat) (status : String)
deriving DecidableEq, Repr

/-- Model of the method `CheckHealth` of `testDataSource`. Here `newRequest` abstracts the outcome
of `http.NewRequestWithContext`; `doResult` what the client would
deliver. The `Bool` records whether `httpClient.Do` was reached. -/
def CheckHealth (ds : TestDataSource) (newRequest : Except String Unit)
    (doResult : HTTPResult) : CheckHealthResult × Bool :=
  match ds.settings with
  | none => (⟨.error, "Data source settings are not initialized"⟩, false)
  | some settings =>
    if ds.httpClient = false then
      (⟨.error, "HTTP client is not initialized"⟩, false)
    else
      match newRequest with
      | .error _ => (⟨.error, "Failed to create health check request"⟩, false)
      | .ok _ =>
        match settings.secrets with
        | none => (⟨.error, "Missing API key in plugin settings"⟩, false)
        | some secrets =>
          if secrets.apiKey = "" then
            (⟨.error, "Missing API key in plugin settings"⟩, false)
          else
            match doResult with
            | .transportError e =>
              (⟨.error, "Request error: " ++ e⟩, true)
            | .response statusCode status =>
              if statusCode ≠ 200 then
                (⟨.error, "Unexpected response: " ++ status⟩, true)
              else
                (⟨.ok, "Datasource is healthy"⟩, true)

instance {α β : Type} [DecidableEq α] [DecidableEq β] :
    DecidableEq (Except α β) := fun
  | .error a, .error b => decidable_of_iff (a = b) (by simp)
  | .error _, .ok _ => .isFalse (by simp)
  | .ok _, .error _ => .isFalse (by simp)
  | .ok a, .ok b => decidable_of_iff (a = b) (by simp)

/-- A query of a `backend.QueryDataRequest`: its RefID and the outcome
of `json.Unmarshal(query.JSON, &q)` — the decode error, or the `Metric`
field (`""` when absent). -/
structure DataQuery where
  refID : String
  json : Except String String
deriving DecidableEq, Repr

/-- What fetching the scrape endpoint would deliver: a transport error
on `Get`, an error reading the body, or a response with status code and
full body text. -/
inductive FetchResult
  | getError (msg : String)
  | readError (msg : String)
  | response (statusCode : Nat) (body : String)
deriving DecidableEq, Repr

/-- A `data.Frame` as built by `QueryData`: name `"metrics"`, a
`metric_name` string column and a `metric_value` numeric column. -/
structure Frame where
  name : String
  metricName : List String
  metricValue : List ℚ
deriving DecidableEq, Repr

/-- Model of `backend.DataResponse` (the fields this plugin populates). -/
structure DataResponse where
  frames : List Frame
  error : Option String
deriving DecidableEq, Repr

/-- Model of `backend.QueryDataResponse`: the `Responses` map, as an association
list from response key to `DataResponse`. -/
structure QueryDataResponse where
  responses : List (String × DataResponse)
deriving DecidableEq, Repr

/-- Helper `toFloat` over an abstracted `strconv.ParseFloat`: the parsed value
on success, `0` on a parse error. -/
def toFloat (parseFloat : String → Option ℚ) (value : String) : ℚ :=
  match parseFloat value with
  | some f => f
  | none => 0

/-- The metric-name loop of `QueryData`: unmarshal each query in order,
fail on a decode error, stop at the first non-empty `Metric`; `.ok ""`
when no query names a metric. -/
def findMetricName : List DataQuery → Except String String
  | [] => .ok ""
  | q :: rest =>
    match q.json with
    | .error e => .error ("failed to unmarshal query JSON: " ++ e)
    | .ok metric => if metric ≠ "" then .ok metric else findMetricName rest

/-- The line-scanning loop of `QueryData`: the first line of which
`metricName` is a string prefix and which splits into exactly two
whitespace fields yields its second field; lines failing either test
are skipped. -/
def scanForMetric (metricName : String) : List String → Option String
  | [] => none
  | line :: rest =>
    if goStartsWith line metricName then
      if (goFields line).length = 2 then (goFields line)[1]?
      else scanForMetric metricName rest
    else scanForMetric metricName rest

/-- Model of the method `QueryData` of `testDataSource`: resolve the metric name from the
batch, fetch the scrape document, scan its lines, and build the
single-frame response keyed `"default"`. The `Bool` records whether the
outbound `httpClient.Get` was reached. -/
def QueryData (parseFloat : String → Option ℚ) (queries : List DataQuery)
    (fetch : FetchResult) : Except String QueryDataResponse × Bool :=
  match findMetricName queries with
  | .error e => (.error e, false)
  | .ok metricName =>
    if metricName = "" then
      (.error "no metric specified in the query", false)
    else
      match fetch with
      | .getError e =>
        (.error ("failed to fetch metrics from endpoint: " ++ e), true)
      | .readError e =>
        (.error ("failed to read metrics response: " ++ e), true)
      | .response _statusCode body =>
        match scanForMetric metricName (goSplitNewline body) with
        | none => (.error ("metric " ++ metricName ++ " not found"), true)
        | some metricValue =>
          (.ok ⟨[("default",
              ⟨[⟨"metrics", [metricName],
                 [toFloat parseFloat metricValue]⟩], none⟩)]⟩, true)

/-- A scrape line the scanning loop accepts for `metricName`: the name
is a string prefix of the line and the line has exactly two whitespace
fields. -/
def lineMatches (metricName line : String) : Bool :=
  goStartsWith line metricName && (goFields line).length == 2

/-- Boolean test that an `Except` result is the error case. -/
def isError {α : Type} : Except String α → Bool
  | .error _ => true
  | .ok _ => false

/-- The scanning loop equals a first-match search: the first line that
passes `lineMatches` contributes its second whitespace field. -/
theorem scanForMetric_eq_find (m : String) (lines : List String) :
    scanForMetric m lines =
      (lines.find? (lineMatches m)).bind fun l => (goFields l)[1]? := by
  induction lines with
  | nil => rfl
  | cons l rest ih =>
    by_cases hp : goStartsWith l m
    · by_cases hl : (goFields l).length = 2
      · simp [scanForMetric, List.find?, lineMatches, hp, hl]
      · have hb : ((goFields l).length == 2) = false := by simp [hl]
        simp [scanForMetric, List.find?, lineMatches, hp, hl, hb, ih]
    · simp [scanForMetric, List.find?, lineMatches, hp, ih]

/-- A string with a non-empty left part of an append is non-empty. -/
theorem append_ne_empty_left (s t : String) (h : s ≠ "") : s ++ t ≠ "" := by
  intro he
  apply h
  have hd := congrArg String.data he
  rw [String.data_append] at hd
  rcases List.append_eq_nil.mp hd with ⟨h1, _⟩
  exact String.ext h1

/-- The metric-name loop returns `.ok ""` on a batch whose queries all
decode to an empty metric. -/
theorem findMetricName_all_empty (qs : List DataQuery)
    (h : ∀ q ∈ qs, q.json = .ok "") : findMetricName qs = .ok "" := by
  induction qs with
  | nil => rfl
  | cons q rest ih =>
    have hq := h q (List.mem_cons_self q rest)
    simp [findMetricName, hq,
      ih fun p hp => h p (List.mem_cons_of_mem q hp)]

/-- The metric-name loop returns the first non-empty decoded metric when
every earlier query decodes to an empty one. -/
theorem findMetricName_first (pre : List DataQuery) (q : DataQuery)
    (post : List DataQuery) (m : String)
    (hpre : ∀ p ∈ pre, p.json = .ok "") (hq : q.json = .ok m) (hm : m ≠ "") :
    findMetricName (pre ++ q :: post) = .ok m := by
  induction pre with
  | nil => simp [findMetricName, hq, hm]
  | cons p rest ih =>
    have hp := hpre p (List.mem_cons_self p rest)
    simp only [List.cons_append, findMetricName, hp]
    simpa using ih fun r hr => hpre r (List.mem_cons_of_mem p hr)

/-- C1 (corrected): the Metrics Scraper matches by Go string prefix, not
by exact metric-name token: a line qualifies exactly when the requested
name is a byte prefix of the line and the line splits into exactly two
whitespace fields, and the first qualifying line contributes its second
field as the value; in particular a query for "foo" does match the
distinct-metric line "foo_bar 42" and the label-set line
"foo{a="b"} 42". -/
theorem c1_scan_is_prefix_match :
    (∀ m doc, scanForMetric m (goSplitNewline doc) =
        ((goSplitNewline doc).find? (lineMatches m)).bind
          fun l => (goFields l)[1]?) ∧
    lineMatches "foo" "foo_bar 42" = true ∧
    lineMatches "foo" "foo\x7ba=\x22b\x22\x7d 42" = true :=
  ⟨fun m doc => scanForMetric_eq_find m (goSplitNewline doc),
   by decide, by decide⟩

/-- C1 counterexample: the claim says a query for "foo" never matches
the line "foo_bar 42" of the distinct metric "foo_bar", nor a label-set
line, but the scanning loop matches both and yields their value. -/
theorem c1_counterexample :
    scanForMetric "foo" (goSplitNewline "foo_bar 42") = some "42" ∧
    scanForMetric "foo" (goSplitNewline "foo\x7ba=\x22b\x22\x7d 42") =
      some "42" := by decide

/-- C2 (corrected): with settings, client, request construction and API
key all in place, CheckHealth returns Ok exactly for status code 200;
every other status code yields Error with the non-empty status-line
message, and every transport error yields Error with a non-empty
message. -/
theorem c2_health_classification (path key : String) (hkey : key ≠ "") :
    (∀ status,
        CheckHealth ⟨true, some ⟨path, some ⟨key⟩⟩⟩ (.ok ())
            (.response 200 status) =
          (⟨.ok, "Datasource is healthy"⟩, true)) ∧
    (∀ code status, code ≠ 200 →
        CheckHealth ⟨true, some ⟨path, some ⟨key⟩⟩⟩ (.ok ())
            (.response code status) =
          (⟨.error, "Unexpected response: " ++ status⟩, true) ∧
        "Unexpected response: " ++ status ≠ "") ∧
    (∀ e,
        CheckHealth ⟨true, some ⟨path, some ⟨key⟩⟩⟩ (.ok ())
            (.transportError e) =
          (⟨.error, "Request error: " ++ e⟩, true) ∧
        "Request error: " ++ e ≠ "") := by
  refine ⟨fun status => ?_, fun code status hc => ⟨?_, ?_⟩, fun e => ⟨?_, ?_⟩⟩
  · simp [CheckHealth, hkey]
  · simp [CheckHealth, hkey, hc]
  · exact append_ne_empty_left _ _ (by decide)
  · simp [CheckHealth, hkey]
  · exact append_ne_empty_left _ _ (by decide)

/-- C2 witness: concrete probes exercising the 200, 500 and transport
branches through `c2_health_classification`. -/
theorem c2_witness :
    CheckHealth ⟨true, some ⟨"", some ⟨"k"⟩⟩⟩ (.ok ())
        (.response 200 "200 OK") =
      (⟨.ok, "Datasource is healthy"⟩, true) ∧
    CheckHealth ⟨true, some ⟨"", some ⟨"k"⟩⟩⟩ (.ok ())
        (.response 500 "500 Internal Server Error") =
      (⟨.error, "Unexpected response: " ++ "500 Internal Server Error"⟩,
        true) ∧
    "Request error: " ++ "connection refused" ≠ "" := by
  have h := c2_health_classification "" "k" (by decide)
  exact ⟨h.1 "200 OK",
    (h.2.1 500 "500 Internal Server Error" (by decide)).1,
    (h.2.2 "connection refused").2⟩

/-- C2 counterexample: status code 201 lies in [200,299], yet
CheckHealth classifies it as Error, refuting the 2xx-is-Ok claim. -/
theorem c2_counterexample :
    200 ≤ 201 ∧ 201 ≤ 299 ∧
    (CheckHealth ⟨true, some ⟨"", some ⟨"key"⟩⟩⟩ (.ok ())
        (.response 201 "201 Created")).1.status = HealthStatus.error := by
  decide

/-- C3 (corrected): every successful QueryData envelope holds exactly
one entry, keyed by the constant "default" (not by the queries' own
identifiers), whose response carries one frame and no error; failures
abort the whole batch with a top-level error instead of per-query
entries. -/
theorem c3_single_default_entry (parseFloat : String → Option ℚ)
    (queries : List DataQuery) (fetch : FetchResult)
    (resp : QueryDataResponse)
    (h : (QueryData parseFloat queries fetch).1 = .ok resp) :
    resp.responses.map Prod.fst = ["default"] ∧
    resp.responses.all
        (fun p => p.2.error.isNone && p.2.frames.length == 1) = true := by
  unfold QueryData at h
  rcases hq : findMetricName queries with e | m
  all_goals rw [hq] at h
  · simp at h
  · by_cases hm : m = ""
    · simp [hm] at h
    · rcases fetch with e | e | ⟨code, body⟩ <;> simp [hm] at h
      rcases hs : scanForMetric m (goSplitNewline body) with _ | v <;>
        rw [hs] at h <;> simp at h
      subst h
      simp

/-- C3 witness: a concrete one-query success run through
`c3_single_default_entry`. -/
theorem c3_witness :
    ((⟨[("default", ⟨[⟨"metrics", ["foo"], [0]⟩], none⟩)]⟩ :
        QueryDataResponse)).responses.map Prod.fst = ["default"] ∧
    ((⟨[("default", ⟨[⟨"metrics", ["foo"], [0]⟩], none⟩)]⟩ :
        QueryDataResponse)).responses.all
        (fun p => p.2.error.isNone && p.2.frames.length == 1) = true :=
  c3_single_default_entry (fun _ => none) [⟨"A", .ok "foo"⟩]
    (.response 200 "foo 1") _ (by decide)

/-- C3 counterexample: a two-query batch with identifiers "A" and "B"
produces a single envelope entry keyed "default", not one entry per
query keyed by its own identifier. -/
theorem c3_counterexample :
    (QueryData (fun _ => none) [⟨"A", .ok "foo"⟩, ⟨"B", .ok "bar"⟩]
        (.response 200 "foo 1")).1 =
      .ok ⟨[("default", ⟨[⟨"metrics", ["foo"], [0]⟩], none⟩)]⟩ ∧
    ("default" : String) ≠ "A" ∧ ("default" : String) ≠ "B" := by decide

/-- C4 (corrected): once request construction has succeeded, a missing
or empty API key makes CheckHealth return Error "Missing API key in
plugin settings" without reaching the outbound network call, whatever
response the network would have given; however the request-construction
check precedes the API-key check in the code, not the other way
around. -/
theorem c4_missing_api_key_fail_fast (path : String)
    (secrets : Option SecretPluginSettings) (doResult : HTTPResult)
    (h : secrets = none ∨ secrets = some ⟨""⟩) :
    CheckHealth ⟨true, some ⟨path, secrets⟩⟩ (.ok ()) doResult =
      (⟨.error, "Missing API key in plugin settings"⟩, false) := by
  rcases h with h | h <;> subst h <;> simp [CheckHealth]

/-- C4 witness: a concrete probe with nil secrets through
`c4_missing_api_key_fail_fast`. -/
theorem c4_witness :
    CheckHealth ⟨true, some ⟨"/metrics", none⟩⟩ (.ok ())
        (.response 200 "200 OK") =
      (⟨.error, "Missing API key in plugin settings"⟩, false) :=
  c4_missing_api_key_fail_fast "/metrics" none (.response 200 "200 OK")
    (Or.inl rfl)

/-- C4 counterexample: with the API key absent but request construction
failing, CheckHealth reports the construction failure, not the missing
API key — the construction classification is applied first, refuting
the claimed rule-3-before-rule-4 ordering. -/
theorem c4_counterexample :
    CheckHealth ⟨true, some ⟨"", none⟩⟩ (.error "bad url")
        (.response 200 "200 OK") =
      (⟨.error, "Failed to create health check request"⟩, false) ∧
    ("Failed to create health check request" : String) ≠
      "Missing API key in plugin settings" := by decide

/-- C5 (corrected): when every query of the batch decodes to an empty
metric name, QueryData fails with "no metric specified in the query"
and never reaches the scrape fetch; when the queries before the first
non-empty metric name decode to empty metrics, the batch behaves
exactly like the batch holding only that first query — later queries
are ignored. A query that fails to decode, however, aborts the batch
with the decode error instead. -/
theorem c5_batch_metric_resolution (parseFloat : String → Option ℚ) :
    (∀ (qs : List DataQuery) (fetch : FetchResult),
        (∀ q ∈ qs, q.json = .ok "") →
        QueryData parseFloat qs fetch =
          (.error "no metric specified in the query", false)) ∧
    (∀ (pre : List DataQuery) (q : DataQuery) (post : List DataQuery)
        (m : String) (fetch : FetchResult),
        (∀ p ∈ pre, p.json = .ok "") → q.json = .ok m → m ≠ "" →
        QueryData parseFloat (pre ++ q :: post) fetch =
          QueryData parseFloat [q] fetch) := by
  constructor
  · intro qs fetch h
    simp [QueryData, findMetricName_all_empty qs h]
  · intro pre q post m fetch hpre hq hm
    have h1 := findMetricName_first pre q post m hpre hq hm
    have h2 : findMetricName [q] = .ok m := by
      simp [findMetricName, hq, hm]
    unfold QueryData
    rw [h1, h2]

/-- C5 witness: concrete batches for the all-empty case and the
first-metric-wins case through `c5_batch_metric_resolution`. -/
theorem c5_witness :
    QueryData (fun _ => none) [⟨"A", .ok ""⟩] (.response 200 "foo 1") =
      (.error "no metric specified in the query", false) ∧
    QueryData (fun _ => none)
        [⟨"A", .ok ""⟩, ⟨"B", .ok "foo"⟩, ⟨"C", .ok "bar"⟩]
        (.response 200 "foo 1") =
      QueryData (fun _ => none) [⟨"B", .ok "foo"⟩]
        (.response 200 "foo 1") := by
  have h := c5_batch_metric_resolution (fun _ => none)
  refine ⟨h.1 [⟨"A", .ok ""⟩] (.response 200 "foo 1") (by simp), ?_⟩
  have h2 := h.2 [⟨"A", .ok ""⟩] ⟨"B", .ok "foo"⟩ [⟨"C", .ok "bar"⟩]
    "foo" (.response 200 "foo 1") (by simp) rfl (by decide)
  simpa using h2

/-- C5 counterexample: a batch whose first query fails to decode and
whose second query names "good_metric" is aborted with the decode
error — not the claimed ValidationError for a metric-less batch, and
without using the later query's metric. -/
theorem c5_counterexample :
    (QueryData (fun _ => none)
        [⟨"A", .error "invalid character"⟩, ⟨"B", .ok "good_metric"⟩]
        (.response 200 "good_metric 1")).1 =
      .error "failed to unmarshal query JSON: invalid character" ∧
    ("failed to unmarshal query JSON: invalid character" : String) ≠
      "no metric specified in the query" := by decide

/-- C6 (corrected): transport-level scrape failures — an error from the
HTTP Get, or an error reading the response body — propagate as errors
carrying the underlying message and are never converted into the
metric-not-found outcome; but an HTTP-level failure status is not
detected at all: the body is scanned regardless, so a non-success
response can surface as metric-not-found. -/
theorem c6_transport_error_propagation (parseFloat : String → Option ℚ)
    (queries : List DataQuery) (m : String)
    (hm : findMetricName queries = .ok m) (hne : m ≠ "") :
    (∀ e, QueryData parseFloat queries (.getError e) =
        (.error ("failed to fetch metrics from endpoint: " ++ e), true)) ∧
    (∀ e, QueryData parseFloat queries (.readError e) =
        (.error ("failed to read metrics response: " ++ e), true)) := by
  constructor <;> intro e <;> simp [QueryData, hm, hne]

/-- C6 witness: concrete Get and body-read failures through
`c6_transport_error_propagation`. -/
theorem c6_witness :
    QueryData (fun _ => none) [⟨"A", .ok "foo"⟩]
        (.getError "connection refused") =
      (.error ("failed to fetch metrics from endpoint: " ++
        "connection refused"), true) ∧
    QueryData (fun _ => none) [⟨"A", .ok "foo"⟩]
        (.readError "unexpected EOF") =
      (.error ("failed to read metrics response: " ++ "unexpected EOF"),
        true) := by
  have h := c6_transport_error_propagation (fun _ => none)
    [⟨"A", .ok "foo"⟩] "foo" (by decide) (by decide)
  exact ⟨h.1 "connection refused", h.2 "unexpected EOF"⟩

/-- C6 counterexample: a scrape response with failure status 503 whose
body lacks the metric is reported as "metric foo not found", not as a
transport error, refuting the claim for HTTP-level failures. -/
theorem c6_counterexample :
    299 < 503 ∧
    (QueryData (fun _ => none) [⟨"A", .ok "foo"⟩]
        (.response 503 "Service Unavailable")).1 =
      .error "metric foo not found" := by decide

/-- C7 (confirmed): toFloat yields exactly zero when the value token
fails to parse and the parsed value when it succeeds, never propagating
a parse error. -/
theorem c7_toFloat_zero_fallback (parseFloat : String → Option ℚ)
    (value : String) :
    (parseFloat value = none → toFloat parseFloat value = 0) ∧
    (∀ f, parseFloat value = some f → toFloat parseFloat value = f) := by
  constructor
  · intro h; simp [toFloat, h]
  · intro f h; simp [toFloat, h]

/-- C7 witness: an unparsable and a parsable token through
`c7_toFloat_zero_fallback`. -/
theorem c7_witness :
    toFloat (fun _ => none) "not-a-number" = 0 ∧
    toFloat (fun _ => some 42) "42" = 42 :=
  ⟨(c7_toFloat_zero_fallback (fun _ => none) "not-a-number").1 rfl,
   (c7_toFloat_zero_fallback (fun _ => some 42) "42").2 42 rfl⟩

/-- C8 (confirmed): a secret map lacking "apiKey" or mapping it to ""
makes the settings loader fail, so no Settings value is returned; a
non-empty "apiKey" yields a non-nil secret bundle holding exactly that
key, and the Settings built from it carries that bundle. -/
theorem c8_settings_loader (jsonData : Except String String)
    (source : List (String × String)) :
    ((source.lookup "apiKey" = none ∨ source.lookup "apiKey" = some "") →
        isError (LoadPluginSettings jsonData source) = true) ∧
    (∀ k, source.lookup "apiKey" = some k → k ≠ "" →
        loadSecretPluginSettings source = .ok ⟨k⟩ ∧
        ∀ path, jsonData = .ok path →
          LoadPluginSettings jsonData source = .ok ⟨path, some ⟨k⟩⟩) := by
  constructor
  · intro h
    have hsec : isError (loadSecretPluginSettings source) = true := by
      rcases h with h | h <;> simp [loadSecretPluginSettings, isError, h]
    cases jsonData with
    | error e => simp [LoadPluginSettings, isError]
    | ok path =>
      cases hLs : loadSecretPluginSettings source with
      | error e => simp [LoadPluginSettings, hLs, isError]
      | ok s => rw [hLs] at hsec; simp [isError] at hsec
  · intro k hk hkne
    have hsec : loadSecretPluginSettings source = .ok ⟨k⟩ := by
      simp [loadSecretPluginSettings, hk, hkne]
    exact ⟨hsec, fun path hp => by subst hp; simp [LoadPluginSettings, hsec]⟩

/-- C8 witness: an empty and a populated secret map through
`c8_settings_loader`. -/
theorem c8_witness :
    isError (LoadPluginSettings (.ok "/var/lib") [("apiKey", "")]) =
      true ∧
    loadSecretPluginSettings [("apiKey", "s3cret")] = .ok ⟨"s3cret"⟩ ∧
    LoadPluginSettings (.ok "/var/lib") [("apiKey", "s3cret")] =
      .ok ⟨"/var/lib", some ⟨"s3cret"⟩⟩ := by
  have h1 := (c8_settings_loader (.ok "/var/lib")
    [("apiKey", "")]).1 (Or.inr (by decide))
  have h2 := (c8_settings_loader (.ok "/var/lib")
    [("apiKey", "s3cret")]).2 "s3cret" (by decide) (by decide)
  exact ⟨h1, h2.1, h2.2 "/var/lib" rfl⟩

/-- C9 (confirmed): on a scrape document whose first matching line is
"foo_total 42", a batch resolving to metric "foo_total" yields the
single successful record with metric_name "foo_total" and metric_value
42, assuming the float parser reads "42" as 42. -/
theorem c9_foo_total_lookup (parseFloat : String → Option ℚ)
    (h : parseFloat "42" = some 42) :
    QueryData parseFloat [⟨"A", .ok "foo_total"⟩]
        (.response 200 "foo_total 42\ngrafana_plugin_queries_total 7") =
      (.ok ⟨[("default",
          ⟨[⟨"metrics", ["foo_total"], [42]⟩], none⟩)]⟩, true) := by
  have hfind : findMetricName [⟨"A", .ok "foo_total"⟩] =
      .ok "foo_total" := by decide
  have hscan : scanForMetric "foo_total"
      (goSplitNewline "foo_total 42\ngrafana_plugin_queries_total 7") =
      some "42" := by decide
  unfold QueryData
  rw [hfind]
  simp only [hscan, toFloat, h]
  decide

/-- C9 witness: a concrete float parser reading "42" as 42 through
`c9_foo_total_lookup`. -/
theorem c9_witness :
    QueryData (fun s => if s = "42" then some 42 else none)
        [⟨"A", .ok "foo_total"⟩]
        (.response 200 "foo_total 42\ngrafana_plugin_queries_total 7") =
      (.ok ⟨[("default",
          ⟨[⟨"metrics", ["foo_total"], [42]⟩], none⟩)]⟩, true) :=
  c9_foo_total_lookup (fun s => if s = "42" then some 42 else none)
    (by simp)

/-- C10 (confirmed): bridge construction rejects an empty instance UID
with an error, whatever the outcomes of HTTP-option building, client
construction and settings decoding would have been — so the check runs
before any of those steps can matter. -/
theorem c10_empty_uid_rejected (settings : DataSourceInstanceSettings)
    (httpClientOptions clientNew : Except String Unit)
    (h : settings.uid = "") :
    newDataSource settings httpClientOptions clientNew =
      .error "data source instance settings cannot be nil" := by
  simp [newDataSource, h]

/-- C10 witness: a concrete empty-UID settings value, with a failing
settings decode that is never consulted, through
`c10_empty_uid_rejected`. -/
theorem c10_witness :
    newDataSource ⟨"", .error "unmarshal failure", []⟩ (.ok ())
        (.ok ()) =
      .error "data source instance settings cannot be nil" :=
  c10_empty_uid_rejected ⟨"", .error "unmarshal failure", []⟩ (.ok ())
    (.ok ()) rfl

end HomelabPlugin
